import Mathlib

/-!
Shallow embedding of the datum-cloud/email-provider-resend convergence engine.

The Go sources are modelled as executable Lean definitions:

* Kubernetes `metav1.Condition` values and the `apimachinery` helpers
  `meta.FindStatusCondition`, `meta.IsStatusConditionTrue` and
  `meta.SetStatusCondition` that every controller and webhook uses;
* the Resend webhook event classification (`internal/resend`);
* the Email / ContactGroup / Contact / ContactGroupMembership reconcilers
  and finalizers (`internal/controller`);
* the webhook receiver handlers (`internal/webhook`);
* the provider adapter service layer (`internal/emailprovider`) and
  `TranslateResendError`.

Condition-type and reason string constants come from the external
`go.miloapis.com/milo` API package, which is not part of this repository;
they are modelled as distinct string literals carrying their Go constant
names.  Nothing below depends on their concrete spelling, only on their
(in)equality.
-/

/-- Kubernetes `metav1.ConditionStatus` (the strings "True", "False",
"Unknown"). -/
inductive CondStatus where
  | ctrue
  | cfalse
  | cunknown
deriving DecidableEq, Repr

/-- Kubernetes `metav1.Condition`.  `lastTransitionTime` is an abstract
timestamp; `observedGeneration` mirrors the Go int64 field. -/
structure Condition where
  condType : String
  status : CondStatus
  reason : String
  message : String
  observedGeneration : Nat
  lastTransitionTime : Nat
deriving DecidableEq, Repr

/-- `meta.FindStatusCondition`: first condition with the given type. -/
def FindStatusCondition (conds : List Condition) (t : String) : Option Condition :=
  match conds with
  | [] => none
  | c :: rest => if c.condType = t then some c else FindStatusCondition rest t

/-- `meta.IsStatusConditionTrue`. -/
def IsStatusConditionTrue (conds : List Condition) (t : String) : Bool :=
  match FindStatusCondition conds t with
  | some c => c.status = CondStatus.ctrue
  | none => false

/-- `meta.SetStatusCondition`: append when the type is absent; otherwise
merge, preserving `lastTransitionTime` when the status is unchanged. -/
def SetStatusCondition (conds : List Condition) (newCond : Condition) : List Condition :=
  match conds with
  | [] => [newCond]
  | c :: rest =>
    if c.condType = newCond.condType then
      { newCond with
        lastTransitionTime :=
          if c.status = newCond.status then c.lastTransitionTime
          else newCond.lastTransitionTime } :: rest
    else
      c :: SetStatusCondition rest newCond

/-! ## Resend email webhook event types (`internal/resend`, src/unnamed/part_008) -/

/-- `resend.EmailEventType` (the `type` field of a Resend webhook payload). -/
inductive EmailEventType where
  | sent
  | delivered
  | deliveredDelayed
  | complained
  | bounced
  | opened
  | clicked
  | emailFailed
  | scheduled
deriving DecidableEq, Repr

/-- The Go string value of each event type constant. -/
def EmailEventType.str : EmailEventType → String
  | .sent => "email.sent"
  | .delivered => "email.delivered"
  | .deliveredDelayed => "email.delivery_delayed"
  | .complained => "email.complained"
  | .bounced => "email.bounced"
  | .opened => "email.opened"
  | .clicked => "email.clicked"
  | .emailFailed => "email.failed"
  | .scheduled => "email.scheduled"

/-- `resend.successfulDeliveredEventsDeliveredEvents`. -/
def successfulDeliveredEventsDeliveredEvents : List EmailEventType :=
  [.delivered, .opened, .clicked, .complained]

/-- `resend.failedDeliveredEvents`. -/
def failedDeliveredEvents : List EmailEventType :=
  [.bounced, .emailFailed]

/-- `resend.normalDeliveredEvents`. -/
def normalDeliveredEvents : List EmailEventType :=
  [.delivered, .opened, .clicked, .scheduled, .sent]

/-! Condition type and reason constants for Email, from the external milo
API package (`notification.miloapis.com/v1alpha1`). -/

def EmailDeliveredCondition : String := "Delivered"

def EmailDeliveryPendingReason : String := "DeliveryPending"

def EmailDeliveredReason : String := "EmailDelivered"

def EmailDeliveryFailedReason : String := "DeliveryFailed"

/-- `corev1.EventTypeNormal`. -/
def EventTypeNormal : String := "Normal"

/-- `corev1.EventTypeWarning`. -/
def EventTypeWarning : String := "Warning"

/-- `resend.EmailCondition` (internal/resend/getemailcondition.go). -/
structure EmailCondition where
  status : CondStatus
  emailDeliveredReason : String
  coreEventType : String
deriving DecidableEq, Repr

/-- `resend.GetEmailCondition` (internal/resend/getemailcondition.go):
starts from `Unknown`/pending, overrides via `slices.Contains` on the
successful and failed event lists, and picks the core event type from the
normal-events list. -/
def GetEmailCondition (eventType : EmailEventType) : EmailCondition :=
  let conditionStatus := CondStatus.cunknown
  let emailDeliveredReason := EmailDeliveryPendingReason
  let (conditionStatus, emailDeliveredReason) :=
    if successfulDeliveredEventsDeliveredEvents.contains eventType then
      (CondStatus.ctrue, EmailDeliveredReason)
    else (conditionStatus, emailDeliveredReason)
  let (conditionStatus, emailDeliveredReason) :=
    if failedDeliveredEvents.contains eventType then
      (CondStatus.cfalse, EmailDeliveryFailedReason)
    else (conditionStatus, emailDeliveredReason)
  let coreEventType :=
    if normalDeliveredEvents.contains eventType then EventTypeNormal
    else EventTypeWarning
  { status := conditionStatus
    emailDeliveredReason := emailDeliveredReason
    coreEventType := coreEventType }

/-! ## Email controller (`EmailController.Reconcile`, src/unnamed/part_004)
and its retry configuration (`internal/config`, src/unnamed/part_009). -/

/-- `notificationmiloapiscomv1alpha1.EmailPriority`.  The milo API defines
string constants for low/normal/high; any other string value falls through
the Go `switch` default, modelled by `unrecognized`. -/
inductive EmailPriority where
  | low
  | normal
  | high
  | unrecognized (s : String)
deriving DecidableEq, Repr

/-- `config.EmailControllerConfig`: per-priority wait durations
(`time.Duration`, modelled as abstract Nat durations). -/
structure EmailControllerConfig where
  lowWait : Nat
  normalWait : Nat
  highWait : Nat
deriving DecidableEq, Repr

/-- `EmailControllerConfig.GetWaitTimeBeforeRetry`: switch on the priority;
an unrecognized priority falls back to the normal wait. -/
def GetWaitTimeBeforeRetry (c : EmailControllerConfig) (priority : EmailPriority) : Nat :=
  match priority with
  | .low => c.lowWait
  | .normal => c.normalWait
  | .high => c.highWait
  | .unrecognized _ => c.normalWait

/-- `Email.Status` (providerID plus conditions). -/
structure EmailStatus where
  providerID : String
  conditions : List Condition
deriving DecidableEq, Repr

/-- `notificationmiloapiscomv1alpha1.EmailVariable`. -/
structure EmailVariable where
  name : String
  value : String
deriving DecidableEq, Repr

/-- The parts of `Email.Spec` the controller and service layer read. -/
structure EmailSpec where
  priority : EmailPriority
  cc : List String
  bcc : List String
  vars : List EmailVariable
deriving DecidableEq, Repr

/-- An `Email` resource: mutable name, immutable UID, spec and status. -/
structure Email where
  name : String
  uid : String
  spec : EmailSpec
  status : EmailStatus
deriving DecidableEq, Repr

/-- `isEmailAlreadySent` (src/unnamed/part_004): skip the send once
`Status.ProviderID` is non-empty or the Delivered condition is True. -/
def isEmailAlreadySent (email : Email) : Bool :=
  if email.status.providerID ≠ "" then true
  else if IsStatusConditionTrue email.status.conditions EmailDeliveredCondition then true
  else false

/-- Outcome of the provider `Send` call and of the subsequent status write,
as seen by one reconcile pass. -/
inductive SendOutcome where
  | sendFailed
  | sendOk (deliveryID : String) (statusWriteOk : Bool)
deriving DecidableEq, Repr

/-- Environment of one `EmailController.Reconcile` pass: the EmailTemplate /
User `Get` calls can fail before the send decision is reached; otherwise the
pass observes a `SendOutcome`. -/
inductive EmailPassEnv where
  | refsError
  | provider (outcome : SendOutcome)
deriving DecidableEq, Repr

/-- Result of one reconcile pass over an Email: the status as persisted in
the store, whether the provider send operation was invoked, and the
requeue-after hint returned to the work queue. -/
structure EmailPassResult where
  status : EmailStatus
  sendCalled : Bool
  requeueAfter : Option Nat
deriving DecidableEq, Repr

/-- One `EmailController.Reconcile` pass (src/unnamed/part_004, lines
49-118): fetch refs, and unless `isEmailAlreadySent` holds invoke the
provider send; on provider failure return a priority-derived timed requeue
with the status untouched; on success persist `ProviderID` and set the
Delivered condition to Unknown/DeliveryPending (a failed status write leaves
the stored status unchanged and surfaces as an error). -/
def emailReconcilePass (cfg : EmailControllerConfig) (email : Email) (now : Nat)
    (env : EmailPassEnv) : EmailPassResult :=
  match env with
  | .refsError => { status := email.status, sendCalled := false, requeueAfter := none }
  | .provider outcome =>
    if !(isEmailAlreadySent email) then
      match outcome with
      | .sendFailed =>
        { status := email.status
          sendCalled := true
          requeueAfter := some (GetWaitTimeBeforeRetry cfg email.spec.priority) }
      | .sendOk deliveryID statusWriteOk =>
        if statusWriteOk then
          { status :=
              { providerID := deliveryID
                conditions := SetStatusCondition email.status.conditions
                  { condType := EmailDeliveredCondition
                    status := CondStatus.cunknown
                    reason := EmailDeliveryPendingReason
                    message := "Email accepted for delivery. Provider ID: " ++ deliveryID
                    observedGeneration := 0
                    lastTransitionTime := now } }
            sendCalled := true
            requeueAfter := none }
        else
          { status := email.status, sendCalled := true, requeueAfter := none }
    else
      { status := email.status, sendCalled := false, requeueAfter := none }

/-- A sequence of reconcile passes over the same Email identity; returns the
final resource and how many passes invoked the provider send operation. -/
def emailReconcileTrace (cfg : EmailControllerConfig) (email : Email) (now : Nat) :
    List EmailPassEnv → Email × Nat
  | [] => (email, 0)
  | env :: rest =>
    let r := emailReconcilePass cfg email now env
    let (e, n) := emailReconcileTrace cfg { email with status := r.status } now rest
    (e, (if r.sendCalled then 1 else 0) + n)

/-- Sample retry configuration used by concrete witnesses. -/
def sampleCfg : EmailControllerConfig := { lowWait := 10, normalWait := 20, highWait := 30 }

/-- A not-yet-sent Email resource. -/
def sampleFreshEmail : Email :=
  { name := "welcome"
    uid := "uid-1"
    spec := { priority := EmailPriority.high, cc := [], bcc := [], vars := [] }
    status := { providerID := "", conditions := [] } }

/-- The same Email after the provider accepted the send. -/
def sampleSentEmail : Email :=
  { sampleFreshEmail with status := { providerID := "d-1", conditions := [] } }

/-! ## Webhook receiver (`internal/webhook`: src/unnamed/part_012,
src/unnamed/part_013, internal/webhook/contact_webhook.go,
internal/webhook/response.go) -/

/-- `webhook.Response`: the HTTP status is the sole signal. -/
structure Response where
  httpStatus : Nat
deriving DecidableEq, Repr

/-- `webhook.OkResponse`. -/
def OkResponse : Response := { httpStatus := 200 }

/-- `webhook.BadRequestResponse`. -/
def BadRequestResponse : Response := { httpStatus := 400 }

/-- `webhook.UnauthorizedResponse`. -/
def UnauthorizedResponse : Response := { httpStatus := 401 }

/-- `webhook.NotFoundResponse`. -/
def NotFoundResponse : Response := { httpStatus := 404 }

/-- `webhook.MethodNotAllowedResponse`. -/
def MethodNotAllowedResponse : Response := { httpStatus := 405 }

/-- `webhook.InternalServerErrorResponse`. -/
def InternalServerErrorResponse : Response := { httpStatus := 500 }

/-- What a webhook handler invocation produced: the HTTP response, the
resulting resource store, and whether a `Status().Update` call was issued
against the store. -/
structure WebhookPassResult (α : Type) where
  response : Response
  store : List α
  statusUpdateIssued : Bool
deriving DecidableEq, Repr

/-- The `status.providerID` field index over Email resources: the extractor
registered in `SetupIndexes` (src/unnamed/part_012) returns no key for an
empty ProviderID, so a `MatchingFields` list yields exactly the emails whose
non-empty ProviderID equals the event identifier. -/
def emailsByProviderID (store : List Email) (pid : String) : List Email :=
  store.filter (fun e => decide (e.status.providerID ≠ "" ∧ e.status.providerID = pid))

/-- `k8sClient.Status().Update` on one Email: replace that object's status. -/
def updateEmailStatusInStore (store : List Email) (uid : String)
    (newStatus : EmailStatus) : List Email :=
  store.map (fun e => if e.uid = uid then { e with status := newStatus } else e)

/-- The `NewResendWebhookV1` handler (src/unnamed/part_013): look the Email
up by the event's embedded provider id; no match returns 404 with nothing
written; otherwise classify the event via `resend.GetEmailCondition`, merge
the Delivered condition into the first match and issue a status update.
(The Kubernetes Event emitted for observability is not modelled.) -/
def resendWebhookV1Handle (store : List Email) (eventType : EmailEventType)
    (emailID : String) (now : Nat) : WebhookPassResult Email :=
  match emailsByProviderID store emailID with
  | [] => { response := NotFoundResponse, store := store, statusUpdateIssued := false }
  | e :: _ =>
    let ec := GetEmailCondition eventType
    let condition : Condition :=
      { condType := EmailDeliveredCondition
        status := ec.status
        reason := ec.emailDeliveredReason
        message := "Updated Email status from webhook event: " ++ eventType.str
        observedGeneration := 0
        lastTransitionTime := now }
    let newStatus :=
      { e.status with conditions := SetStatusCondition e.status.conditions condition }
    { response := OkResponse
      store := updateEmailStatusInStore store e.uid newStatus
      statusUpdateIssued := true }

/-! Contact-side constants (milo API and `internal/controller`). -/

def ContactReadyCondition : String := "Ready"

def ContactCreatedReason : String := "ContactCreated"

def ContactUpdatedCondition : String := "ContactUpdated"

def ContactUpdatedReason : String := "ContactUpdated"

def ContactUpdatePendingReason : String := "ContactUpdatePending"

def ContactDeletedCondition : String := "ContactDeleted"

def ContactDeletedReason : String := "ContactDeleted"

def ResendContactReadyCondition : String := "ResendContactReady"

def ResendContactCreatedReason : String := "ResendContactCreated"

/-- `Contact.Status`. -/
structure ContactStatus where
  providerID : String
  conditions : List Condition
deriving DecidableEq, Repr

/-- A `Contact` resource (generation drives update detection). -/
structure Contact where
  name : String
  uid : String
  generation : Nat
  status : ContactStatus
deriving DecidableEq, Repr

/-- `resend.ContactEventType` (internal/resend/contactevent.go):
contact.created / contact.updated / contact.deleted. -/
inductive ContactEventType where
  | created
  | updated
  | deleted
deriving DecidableEq, Repr

/-- The Contact `status.providerID` field index, analogous to the Email one. -/
def contactsByProviderID (store : List Contact) (pid : String) : List Contact :=
  store.filter (fun c => decide (c.status.providerID ≠ "" ∧ c.status.providerID = pid))

/-- `k8sClient.Status().Update` on one Contact. -/
def updateContactStatusInStore (store : List Contact) (uid : String)
    (newStatus : ContactStatus) : List Contact :=
  store.map (fun c => if c.uid = uid then { c with status := newStatus } else c)

/-- The guard `updatedCond != nil && updatedCond.Reason ==
ContactUpdatePendingReason` used by every branch of the contact webhook
switch (internal/webhook/contact_webhook.go). -/
def hasPendingContactUpdate (conds : List Condition) : Bool :=
  match FindStatusCondition conds ContactUpdatedCondition with
  | some c => c.reason = ContactUpdatePendingReason
  | none => false

/-- The "Contact update confirmed" condition the handler writes whenever an
update was pending (and on contact.updated events). -/
def contactUpdateConfirmedCondition (gen now : Nat) : Condition :=
  { condType := ContactUpdatedCondition
    status := CondStatus.ctrue
    reason := ContactUpdatedReason
    message := "Contact update confirmed by email provider webhook"
    observedGeneration := gen
    lastTransitionTime := now }

/-- Condition selected by the `NewResendContactWebhookV1` switch
(internal/webhook/contact_webhook.go, lines 46-110) as a function of the
event type and the contact's current conditions.  Each event-type case first
checks for a pending update and then confirms that update instead of its own
transition (both arms of the contact.updated case write the same
condition, as in the source). -/
def contactEventCondition (eventType : ContactEventType) (conds : List Condition)
    (gen now : Nat) : Condition :=
  match eventType with
  | .created =>
    if hasPendingContactUpdate conds then
      contactUpdateConfirmedCondition gen now
    else
      { condType := ResendContactReadyCondition
        status := CondStatus.ctrue
        reason := ResendContactCreatedReason
        message := "Contact creation confirmed by email provider webhook"
        observedGeneration := gen
        lastTransitionTime := now }
  | .updated =>
    if hasPendingContactUpdate conds then
      contactUpdateConfirmedCondition gen now
    else
      contactUpdateConfirmedCondition gen now
  | .deleted =>
    if hasPendingContactUpdate conds then
      contactUpdateConfirmedCondition gen now
    else
      { condType := ContactDeletedCondition
        status := CondStatus.ctrue
        reason := ContactDeletedReason
        message := "Contact deletion confirmed by email provider webhook"
        observedGeneration := gen
        lastTransitionTime := now }

/-- The `NewResendContactWebhookV1` handler
(internal/webhook/contact_webhook.go): look the Contact up by the event's
contact id; no match returns 200 as a no-op (already-deleted resources must
not cause provider retries); otherwise merge the selected condition into the
first match and issue a status update. -/
def resendContactWebhookV1Handle (store : List Contact) (eventType : ContactEventType)
    (contactID : String) (now : Nat) : WebhookPassResult Contact :=
  match contactsByProviderID store contactID with
  | [] => { response := OkResponse, store := store, statusUpdateIssued := false }
  | c :: _ =>
    let condition := contactEventCondition eventType c.status.conditions c.generation now
    let newStatus :=
      { c.status with conditions := SetStatusCondition c.status.conditions condition }
    { response := OkResponse
      store := updateContactStatusInStore store c.uid newStatus
      statusUpdateIssued := true }

/-- A condition list with a pending Contact update, for witnesses. -/
def pendingUpdateConds : List Condition :=
  [{ condType := ContactUpdatedCondition
     status := CondStatus.cfalse
     reason := ContactUpdatePendingReason
     message := "Contact update pending"
     observedGeneration := 2
     lastTransitionTime := 1 }]

/-! ## Provider error translation (`internal/emailprovider/resend_errors.go`)
and the ContactGroupMembership deletion guard (src/unnamed/part_006). -/

/-- Character-list helper: does `hay` start with `needle`? -/
def charListHasPre : List Char → List Char → Bool
  | [], _ => true
  | _ :: _, [] => false
  | a :: as, b :: bs => a = b && charListHasPre as bs

/-- Character-list helper: does `hay` contain `needle` as a contiguous run? -/
def charListHasSub (needle : List Char) : List Char → Bool
  | [] => needle.isEmpty
  | b :: bs => charListHasPre needle (b :: bs) || charListHasSub needle bs

/-- `strings.Contains hay needle`. -/
def strContains (hay needle : String) : Bool :=
  charListHasSub needle.data hay.data

/-- `strings.ToLower` (character-wise lowering). -/
def strToLower (s : String) : String :=
  ⟨s.data.map Char.toLower⟩

/-- Errors surfaced by the provider adapter after translation: a
Kubernetes-style NotFound (carrying the group/resource and name metadata)
or any other error message. -/
inductive ProviderError where
  | notFound (group resource name : String)
  | other (msg : String)
deriving DecidableEq, Repr

/-- `apierrors.IsNotFound`. -/
def IsNotFound : ProviderError → Bool
  | .notFound _ _ _ => true
  | .other _ => false

/-- `TranslateResendError` (internal/emailprovider/resend_errors.go): a
Resend SDK error whose lower-cased text contains "not found" becomes a
Kubernetes NotFound error for the given group/resource and name; any other
error passes through unchanged. -/
def TranslateResendError (errMsg : String) (group resource name : String) : ProviderError :=
  if strContains (strToLower errMsg) "not found" then ProviderError.notFound group resource name
  else ProviderError.other errMsg

/-- `emailprovider.DeleteContactGroupMembershipOutput`. -/
structure DeleteContactGroupMembershipOutput where
  contactGroupMembershipID : String
  deleted : Bool
deriving DecidableEq, Repr

/-- `ResendEmailProvider.DeleteContactGroupMembership`
(src/unnamed/part_003): forward the raw SDK `Contacts.Remove` result,
translating SDK errors via `TranslateResendError` with the contacts
group-resource and the contact group id. -/
def resendDeleteContactGroupMembership (sdk : Except String Bool)
    (contactGroupId : String) : Except ProviderError DeleteContactGroupMembershipOutput :=
  match sdk with
  | .error e => .error (TranslateResendError e "resend" "contacts" contactGroupId)
  | .ok deleted => .ok { contactGroupMembershipID := "", deleted := deleted }

/-! ContactGroupMembership condition constants (milo API and
src/unnamed/part_005). -/

def ContactGroupMembershipReadyCondition : String := "Ready"

def ContactGroupMembershipCreatedReason : String := "ContactGroupMembershipCreated"

def ContactGroupMembershipCreatePendingReason : String := "CreatePending"

def ContactGroupMembershipUpdatedCondition : String := "ContactGroupMembershipUpdated"

def ContactGroupMembershipUpdatedReason : String := "ContactGroupMembershipUpdated"

def ContactGroupMembershipUpdateRequestedReason : String := "UpdateRequested"

def ContactGroupMembershipDeletedCondition : String := "ContactGroupMembershipDeleted"

def ContactGroupMembershipDeletePendingReason : String := "DeletePending"

def ResendContactGroupMembershipReadyCondition : String := "ResendContactGroupMembershipReady"

def LoopsContactGroupMembershipReadyCondition : String := "LoopsContactGroupMembershipReady"

/-- State visible to one `contactGroupMembershipFinalizer.Finalize`
invocation (src/unnamed/part_006): the membership's stored conditions,
whether the store `Get` of the referenced ContactGroup succeeds, the
referenced group's provider id, and the raw Resend SDK outcome of the
provider delete call. -/
structure CgmFinalizeEnv where
  conditions : List Condition
  contactGroupGetOk : Bool
  contactGroupProviderID : String
  sdkDelete : Except String Bool
deriving Repr

/-- Outcome of a deletion-guard invocation: `completed` releases the guard
so the resource can be physically removed; the other outcomes are retryable
errors that keep it in place. -/
inductive FinalizeOutcome where
  | completed
  | waitingForDeletions (n : Nat)
  | failed (msg : String)
deriving DecidableEq, Repr

/-- Result of a ContactGroupMembership guard invocation: outcome, number of
provider delete calls made, and the conditions as stored afterwards. -/
structure CgmFinalizeResult where
  outcome : FinalizeOutcome
  providerDeleteCalls : Nat
  conditions : List Condition
deriving DecidableEq, Repr

/-- `contactGroupMembershipFinalizer.Finalize` (src/unnamed/part_006, lines
59-116): complete at once if deletion is already confirmed; fetch the
referenced ContactGroup; invoke the idempotent provider delete; a NotFound
error completes the guard immediately; any other error or `Deleted=false`
fails retryably; on `Deleted=true` record the delete-pending condition and
fail retryably until the confirmation webhook arrives. -/
def cgmFinalize (env : CgmFinalizeEnv) (now : Nat) : CgmFinalizeResult :=
  if IsStatusConditionTrue env.conditions ContactGroupMembershipDeletedCondition then
    { outcome := .completed, providerDeleteCalls := 0, conditions := env.conditions }
  else if !env.contactGroupGetOk then
    { outcome := .failed "failed to get ContactGroup"
      providerDeleteCalls := 0
      conditions := env.conditions }
  else
    match resendDeleteContactGroupMembership env.sdkDelete env.contactGroupProviderID with
    | .error e =>
      if IsNotFound e then
        { outcome := .completed, providerDeleteCalls := 1, conditions := env.conditions }
      else
        { outcome := .failed "failed to delete ContactGroupMembership from email provider"
          providerDeleteCalls := 1
          conditions := env.conditions }
    | .ok delResult =>
      if !delResult.deleted then
        { outcome := .failed "expected deleted to be true"
          providerDeleteCalls := 1
          conditions := env.conditions }
      else
        { outcome := .failed "waiting for email provider confirmation webhook to be triggered for ContactGroupMembership deletion"
          providerDeleteCalls := 1
          conditions := SetStatusCondition env.conditions
            { condType := ContactGroupMembershipDeletedCondition
              status := CondStatus.cfalse
              reason := ContactGroupMembershipDeletePendingReason
              message := "ContactGroupMembership delete pending, waiting for email provider confirmation webhook to be triggered"
              observedGeneration := 0
              lastTransitionTime := now } }

/-- Concrete guard environment whose provider delete hits a Resend
"not found" SDK error. -/
def sampleCgmNotFoundEnv : CgmFinalizeEnv :=
  { conditions := []
    contactGroupGetOk := true
    contactGroupProviderID := "aud-1"
    sdkDelete := .error "[ERROR]: Contact not found" }

/-! ## ContactGroup and Contact deletion guards
(`contactGroupFinalizer.Finalize`, src/unnamed/part_004, lines 230-322;
`contactFinalizer.Finalize`, internal/controller/contact_controller.go,
lines 56-122). -/

/-- Result of deleting a dependent object through the store: Kubernetes
removes it at once when no other finalizer blocks it, keeps it pending when
one does, reports NotFound if it is already gone, or fails. -/
inductive StoreDeleteResult where
  | removed
  | pendingFinalizer
  | notFound
  | failed (msg : String)
deriving DecidableEq, Repr

/-- A dependent (ContactGroupMembership or ContactGroupMembershipRemoval)
returned by the index lookup, together with how the store delete of it
behaves. -/
structure Dependent where
  name : String
  deleteResult : StoreDeleteResult
deriving DecidableEq, Repr

/-- First failing delete in a dependent list, if any (the Go loop skips
NotFound and aborts on the first other error). -/
def firstDeleteError : List Dependent → Option String
  | [] => none
  | d :: rest =>
    match d.deleteResult with
    | .failed m => some m
    | _ => firstDeleteError rest

/-- Dependents that survive their own store delete (blocked by their own
finalizer) and therefore still appear when re-listing. -/
def survivingDependents (ds : List Dependent) : List Dependent :=
  ds.filter (fun d => decide (d.deleteResult = StoreDeleteResult.pendingFinalizer))

/-- State visible to one `contactGroupFinalizer.Finalize` invocation: the
indexed dependents and the provider get/delete outcomes for the group's own
external entity (already translated, as by `TranslateResendError`). -/
structure CgFinalizeEnv where
  cgms : List Dependent
  cgmrs : List Dependent
  providerGet : Except ProviderError Unit
  providerDelete : Except ProviderError Bool
deriving Repr

/-- Result of a ContactGroup guard invocation. -/
structure CgFinalizeResult where
  outcome : FinalizeOutcome
  providerDeleteCalled : Bool
deriving DecidableEq, Repr

/-- `contactGroupFinalizer.Finalize` (src/unnamed/part_004, lines 230-322):
delete the referencing ContactGroupMemberships (NotFound skipped, any other
error aborts), re-list and fail with the retryable waiting-for-N signal if
any remain, delete the referencing ContactGroupMembershipRemovals, then
get-then-delete the group's provider entity treating NotFound as success and
requiring `Deleted=true`. -/
def contactGroupFinalize (env : CgFinalizeEnv) : CgFinalizeResult :=
  match firstDeleteError env.cgms with
  | some _ =>
    { outcome := .failed "failed to delete ContactGroupMembership"
      providerDeleteCalled := false }
  | none =>
    let remaining := survivingDependents env.cgms
    if remaining.length > 0 then
      { outcome := .waitingForDeletions remaining.length, providerDeleteCalled := false }
    else
      match firstDeleteError env.cgmrs with
      | some _ =>
        { outcome := .failed "failed to delete ContactGroupMembershipRemoval"
          providerDeleteCalled := false }
      | none =>
        match env.providerGet with
        | .error e =>
          if IsNotFound e then
            { outcome := .completed, providerDeleteCalled := false }
          else
            { outcome := .failed "failed to get ContactGroup from email provider"
              providerDeleteCalled := false }
        | .ok _ =>
          match env.providerDelete with
          | .error e =>
            if IsNotFound e then
              { outcome := .completed, providerDeleteCalled := true }
            else
              { outcome := .failed "failed to delete ContactGroup from email provider"
                providerDeleteCalled := true }
          | .ok deleted =>
            if !deleted then
              { outcome := .failed "expected deleted to be true"
                providerDeleteCalled := true }
            else
              { outcome := .completed, providerDeleteCalled := true }

/-- State visible to one `contactFinalizer.Finalize` invocation (the Contact
guard performs no provider call of its own). -/
structure ContactFinalizeEnv where
  cgms : List Dependent
  cgmrs : List Dependent
deriving DecidableEq, Repr

/-- `contactFinalizer.Finalize` (internal/controller/contact_controller.go,
lines 56-122): delete the referencing ContactGroupMemberships, re-list and
fail with the retryable waiting-for-N signal if any remain, then delete the
referencing ContactGroupMembershipRemovals and complete. -/
def contactFinalize (env : ContactFinalizeEnv) : FinalizeOutcome :=
  match firstDeleteError env.cgms with
  | some _ => .failed "failed to delete ContactGroupMembership"
  | none =>
    let remaining := survivingDependents env.cgms
    if remaining.length > 0 then
      .waitingForDeletions remaining.length
    else
      match firstDeleteError env.cgmrs with
      | some _ => .failed "failed to delete ContactGroupMembershipRemoval"
      | none => .completed

/-- Concrete guard environment with one membership blocked by its own
finalizer. -/
def sampleCgBlockedEnv : CgFinalizeEnv :=
  { cgms := [{ name := "m1", deleteResult := StoreDeleteResult.pendingFinalizer }]
    cgmrs := []
    providerGet := .ok ()
    providerDelete := .ok true }

/-! ## Aggregated ContactGroupMembership readiness
(`verifyContactGroupMembershipReadyCondition`, src/unnamed/part_005, lines
296-335). -/

/-- The `cond != nil && cond.Status == True` test applied to each provider
sub-condition. -/
def optCondTrue : Option Condition → Bool
  | some c => c.status = CondStatus.ctrue
  | none => false

/-- The "Loops: ..." fragment contributed to the not-ready message. -/
def loopsNotReadySegment : Option Condition → String
  | none => "Loops: condition missing; "
  | some c =>
    if c.status ≠ CondStatus.ctrue then
      "Loops: " ++ c.reason ++ " (" ++ c.message ++ "); "
    else ""

/-- The "Resend: ..." fragment contributed to the not-ready message. -/
def resendNotReadySegment : Option Condition → String
  | none => "Resend: condition missing; "
  | some c =>
    if c.status ≠ CondStatus.ctrue then
      "Resend: " ++ c.reason ++ " (" ++ c.message ++ "); "
    else ""

/-- `verifyContactGroupMembershipReadyCondition` (src/unnamed/part_005):
aggregate the Loops and Resend provider-specific ready sub-conditions into
the user-facing Ready condition — True with reason AllProvidersReady iff
both are present and True, otherwise False with reason ProvidersNotReady and
a message naming every non-ready provider. -/
def verifyContactGroupMembershipReadyCondition (conds : List Condition)
    (gen now : Nat) : List Condition :=
  let loopsCond := FindStatusCondition conds LoopsContactGroupMembershipReadyCondition
  let resendCond := FindStatusCondition conds ResendContactGroupMembershipReadyCondition
  let allReady := optCondTrue loopsCond && optCondTrue resendCond
  if allReady then
    SetStatusCondition conds
      { condType := ContactGroupMembershipReadyCondition
        status := CondStatus.ctrue
        reason := "AllProvidersReady"
        message := "Loops and Resend contact group membership are ready"
        observedGeneration := gen
        lastTransitionTime := now }
  else
    SetStatusCondition conds
      { condType := ContactGroupMembershipReadyCondition
        status := CondStatus.cfalse
        reason := "ProvidersNotReady"
        message := loopsNotReadySegment loopsCond ++ resendNotReadySegment resendCond
        observedGeneration := gen
        lastTransitionTime := now }

/-- Concrete condition list with Loops ready and Resend not ready. -/
def sampleCgmConds : List Condition :=
  [{ condType := LoopsContactGroupMembershipReadyCondition
     status := CondStatus.ctrue
     reason := "NewsLetterAdded"
     message := "ok"
     observedGeneration := 1
     lastTransitionTime := 1 },
   { condType := ResendContactGroupMembershipReadyCondition
     status := CondStatus.cfalse
     reason := "CreatePending"
     message := "waiting"
     observedGeneration := 1
     lastTransitionTime := 1 }]

/-! ## Reconciler status passes and the compare-before-write guard
(`ContactGroupController.Reconcile`, src/unnamed/part_004, lines 329-409;
`ContactController.Reconcile`, internal/controller/contact_controller.go,
lines 130-230; `ContactGroupMembershipController.Reconcile`,
src/unnamed/part_005, lines 116-227). -/

/-! ContactGroup condition constants (milo API). -/

def ContactGroupReadyCondition : String := "Ready"

def ContactGroupCreatedReason : String := "ContactGroupCreated"

def ContactGroupUpdatedCondition : String := "ContactGroupUpdated"

def ContactGroupUpdatedReason : String := "ContactGroupUpdated"

/-- `ContactGroup.Status`. -/
structure ContactGroupStatus where
  providerID : String
  conditions : List Condition
deriving DecidableEq, Repr

/-- A `ContactGroup` resource. -/
structure ContactGroup where
  name : String
  uid : String
  generation : Nat
  status : ContactGroupStatus
deriving DecidableEq, Repr

/-- Outcome of the provider idempotent create during a reconcile pass. -/
inductive CreateOutcome where
  | createFailed
  | createOk (providerID : String)
deriving DecidableEq, Repr

/-- Status computed by a reconcile pass together with whether the pass
issued a `Status().Update` call against the store. -/
structure StatusPassResult (σ : Type) where
  newStatus : σ
  updateIssued : Bool
deriving DecidableEq, Repr

/-- The status-transformation switch of `ContactGroupController.Reconcile`
(src/unnamed/part_004, lines 362-394): create on first sight (persisting
`ProviderID` and Ready=True), mark Updated=True when the generation has
advanced, or leave the status alone; a failed provider create aborts the
pass before any write. -/
def contactGroupComputeStatus (cg : ContactGroup) (env : CreateOutcome)
    (now : Nat) : Option ContactGroupStatus :=
  match FindStatusCondition cg.status.conditions ContactGroupReadyCondition with
  | none =>
    match env with
    | .createFailed => none
    | .createOk pid =>
      some
        { providerID := pid
          conditions := SetStatusCondition cg.status.conditions
            { condType := ContactGroupReadyCondition
              status := CondStatus.ctrue
              reason := ContactGroupCreatedReason
              message := "Contact group created on email provider"
              observedGeneration := cg.generation
              lastTransitionTime := now } }
  | some existingCond =>
    if existingCond.observedGeneration ≠ cg.generation then
      some
        { cg.status with
          conditions := SetStatusCondition cg.status.conditions
            { condType := ContactGroupUpdatedCondition
              status := CondStatus.ctrue
              reason := ContactGroupUpdatedReason
              message := "Contact group updated"
              observedGeneration := cg.generation
              lastTransitionTime := now } }
    else
      some cg.status

/-- `ContactGroupController.Reconcile` status write (src/unnamed/part_004,
lines 396-404): `equality.Semantic.DeepEqual` guard — the update call is
issued only when the computed status differs from the one read at the start
of the pass. -/
def contactGroupReconcileStatus (cg : ContactGroup) (env : CreateOutcome)
    (now : Nat) : Option (StatusPassResult ContactGroupStatus) :=
  (contactGroupComputeStatus cg env now).map
    (fun ns => { newStatus := ns, updateIssued := decide (ns ≠ cg.status) })

/-- The status-transformation switch of `ContactController.Reconcile`
(internal/controller/contact_controller.go, lines 161-215), restricted to
the contact's own status (the unconditional flagging of referenced
ContactGroupMemberships is a separate write, not guarded). -/
def contactComputeStatus (c : Contact) (now : Nat) : ContactStatus :=
  match FindStatusCondition c.status.conditions ContactReadyCondition with
  | none =>
    { c.status with
      conditions := SetStatusCondition c.status.conditions
        { condType := ContactReadyCondition
          status := CondStatus.ctrue
          reason := ContactCreatedReason
          message := "Contact created"
          observedGeneration := c.generation
          lastTransitionTime := now } }
  | some _ =>
    match FindStatusCondition c.status.conditions ContactUpdatedCondition with
    | none =>
      { c.status with
        conditions := SetStatusCondition c.status.conditions
          { condType := ContactUpdatedCondition
            status := CondStatus.ctrue
            reason := ContactUpdatedReason
            message := "Contact updated"
            observedGeneration := c.generation
            lastTransitionTime := now } }
    | some updatedCond =>
      if updatedCond.observedGeneration ≠ c.generation then
        { c.status with
          conditions := SetStatusCondition c.status.conditions
            { condType := ContactUpdatedCondition
              status := CondStatus.ctrue
              reason := ContactUpdatedReason
              message := "Contact updated"
              observedGeneration := c.generation
              lastTransitionTime := now } }
      else
        c.status

/-- `ContactController.Reconcile` status write (lines 217-225): DeepEqual
guard on the contact's own status. -/
def contactReconcileStatus (c : Contact) (now : Nat) : StatusPassResult ContactStatus :=
  let ns := contactComputeStatus c now
  { newStatus := ns, updateIssued := decide (ns ≠ c.status) }

/-- `ContactGroupMembership.Status`. -/
structure ContactGroupMembershipStatus where
  providerID : String
  conditions : List Condition
deriving DecidableEq, Repr

/-- A `ContactGroupMembership` resource. -/
structure ContactGroupMembership where
  name : String
  uid : String
  generation : Nat
  status : ContactGroupMembershipStatus
deriving DecidableEq, Repr

/-- The status-transformation switch of
`ContactGroupMembershipController.Reconcile` (src/unnamed/part_005, lines
168-210) followed by the readiness aggregation the pass always applies:
create on first sight (Resend sub-condition True), recreate when an update
was requested, else leave alone; a failed provider call aborts before any
write. -/
def cgmComputeStatus (cgm : ContactGroupMembership) (env : CreateOutcome)
    (now : Nat) : Option ContactGroupMembershipStatus :=
  match FindStatusCondition cgm.status.conditions ContactGroupMembershipReadyCondition with
  | none =>
    match env with
    | .createFailed => none
    | .createOk pid =>
      some
        { providerID := pid
          conditions := SetStatusCondition cgm.status.conditions
            { condType := ResendContactGroupMembershipReadyCondition
              status := CondStatus.ctrue
              reason := ContactGroupMembershipCreatedReason
              message := "ContactGroupMembership created and synced with email provider"
              observedGeneration := cgm.generation
              lastTransitionTime := now } }
  | some _ =>
    match FindStatusCondition cgm.status.conditions ContactGroupMembershipUpdatedCondition with
    | some updatedCond =>
      if updatedCond.status = CondStatus.cfalse ∧
          updatedCond.reason = ContactGroupMembershipUpdateRequestedReason then
        match env with
        | .createFailed => none
        | .createOk pid =>
          some
            { providerID := pid
              conditions := SetStatusCondition cgm.status.conditions
                { condType := ContactGroupMembershipUpdatedCondition
                  status := CondStatus.ctrue
                  reason := ContactGroupMembershipUpdatedReason
                  message := "ContactGroupMembership updated, and synced with email provider"
                  observedGeneration := cgm.generation
                  lastTransitionTime := now } }
      else
        some cgm.status
    | none => some cgm.status

/-- `ContactGroupMembershipController.Reconcile` status write
(src/unnamed/part_005, lines 212-222): apply
`verifyContactGroupMembershipReadyCondition`, then the DeepEqual guard. -/
def cgmReconcileStatus (cgm : ContactGroupMembership) (env : CreateOutcome)
    (now : Nat) : Option (StatusPassResult ContactGroupMembershipStatus) :=
  (cgmComputeStatus cgm env now).map
    (fun ns =>
      let verified :=
        { ns with
          conditions := verifyContactGroupMembershipReadyCondition ns.conditions
            cgm.generation now }
      { newStatus := verified, updateIssued := decide (verified ≠ cgm.status) })

/-- An Email carrying exactly the Delivered condition a duplicate
email.delivered webhook event would recompute. -/
def dupDeliveredEmail : Email :=
  { name := "e1"
    uid := "u-9"
    spec := { priority := EmailPriority.normal, cc := [], bcc := [], vars := [] }
    status :=
      { providerID := "d-9"
        conditions :=
          [{ condType := EmailDeliveredCondition
             status := CondStatus.ctrue
             reason := EmailDeliveredReason
             message := "Updated Email status from webhook event: email.delivered"
             observedGeneration := 0
             lastTransitionTime := 5 }] } }

/-- Concrete resources for the reconciler-guard witness. -/
def sampleContactGroup : ContactGroup :=
  { name := "g1", uid := "ug", generation := 1
    status := { providerID := "", conditions := [] } }

def sampleContact : Contact :=
  { name := "c1", uid := "uc", generation := 1
    status := { providerID := "", conditions := [] } }

def sampleCgm : ContactGroupMembership :=
  { name := "m1", uid := "um", generation := 1
    status := { providerID := "", conditions := [] } }

/-! ## Provider adapter service layer (`Service.Send`,
internal/emailprovider/service.go, lines 30-69; src/unnamed/part_002) and
the template renderers (internal/emailtemplanting). -/

/-- The fields of `EmailTemplate.Spec` the renderers read. -/
structure EmailTemplate where
  subject : String
  htmlBody : String
  textBody : String
deriving DecidableEq, Repr

/-- Stand-in for the Go html/template and text/template engines used by
`internal/emailtemplanting` (external stdlib): parse+execute of a non-empty
template body, which may fail on malformed syntax. -/
structure TemplateEngine where
  execHTML : List EmailVariable → String → Except String String
  execText : List EmailVariable → String → Except String String

/-- `emailtemplating.RenderHTMLBodyTemplate`: an empty body renders to ""
without invoking the engine. -/
def RenderHTMLBodyTemplate (eng : TemplateEngine) (vars : List EmailVariable)
    (template : EmailTemplate) : Except String String :=
  if template.htmlBody = "" then .ok "" else eng.execHTML vars template.htmlBody

/-- `emailtemplating.RenderTextBodyTemplate`. -/
def RenderTextBodyTemplate (eng : TemplateEngine) (vars : List EmailVariable)
    (template : EmailTemplate) : Except String String :=
  if template.textBody = "" then .ok "" else eng.execText vars template.textBody

/-- `emailtemplating.RenderSubjectTemplate`. -/
def RenderSubjectTemplate (eng : TemplateEngine) (vars : List EmailVariable)
    (template : EmailTemplate) : Except String String :=
  if template.subject = "" then .ok "" else eng.execText vars template.subject

/-- `emailprovider.SendEmailInput` (`from` is a Lean keyword, hence
`sendFrom`). -/
structure SendEmailInput where
  sendFrom : String
  replyTo : String
  idempotencyKey : String
  toAddrs : List String
  cc : List String
  bcc : List String
  subject : String
  htmlBody : String
  textBody : String
deriving DecidableEq, Repr

/-- The `Service` configuration: default From and Reply-To addresses. -/
structure ServiceCfg where
  sendFrom : String
  replyTo : String
deriving DecidableEq, Repr

/-- `Service.Send` (internal/emailprovider/service.go, lines 30-69): render
the three templates in order, aborting on the first failure, and hand the
provider a `SendEmailInput` whose idempotency key is the Email's UID.
Returns the input passed to `provider.SendEmail`. -/
def serviceSendInput (s : ServiceCfg) (eng : TemplateEngine) (email : Email)
    (template : EmailTemplate) (recipientEmailAddress : String) :
    Except String SendEmailInput := do
  let htmlBody ← RenderHTMLBodyTemplate eng email.spec.vars template
  let textBody ← RenderTextBodyTemplate eng email.spec.vars template
  let subject ← RenderSubjectTemplate eng email.spec.vars template
  pure
    { sendFrom := s.sendFrom
      replyTo := s.replyTo
      idempotencyKey := email.uid
      toAddrs := [recipientEmailAddress]
      cc := email.spec.cc
      bcc := email.spec.bcc
      subject := subject
      htmlBody := htmlBody
      textBody := textBody }

/-- An engine that renders every template body verbatim. -/
def sampleEngine : TemplateEngine :=
  { execHTML := fun _ body => .ok body
    execText := fun _ body => .ok body }

/-- A sample template and service configuration for witnesses. -/
def sampleTemplate : EmailTemplate :=
  { subject := "Welcome", htmlBody := "<p>Hi</p>", textBody := "Hi" }

def sampleSvc : ServiceCfg :=
  { sendFrom := "noreply@example.com", replyTo := "support@example.com" }

/-- The `SendEmailInput` produced for `sampleFreshEmail` with the sample
engine, template and service configuration. -/
def sampleSendInput : SendEmailInput :=
  { sendFrom := "noreply@example.com"
    replyTo := "support@example.com"
    idempotencyKey := "uid-1"
    toAddrs := ["user@example.com"]
    cc := []
    bcc := []
    subject := "Welcome"
    htmlBody := "<p>Hi</p>"
    textBody := "Hi" }

/-! ## Theorems -/

/-- C2: the webhook event-type-to-condition mapping is a pure function of the
event type: `email.sent`/`email.scheduled` yield a Delivered condition with
status Unknown and the delivery-pending reason; `email.delivered`,
`email.opened`, `email.clicked`, `email.complained` yield status True with
the delivered reason; `email.bounced`/`email.failed` yield status False with
the delivery-failed reason. -/
theorem getEmailCondition_eventTable :
    (GetEmailCondition .sent).status = CondStatus.cunknown ∧
    (GetEmailCondition .sent).emailDeliveredReason = EmailDeliveryPendingReason ∧
    (GetEmailCondition .scheduled).status = CondStatus.cunknown ∧
    (GetEmailCondition .scheduled).emailDeliveredReason = EmailDeliveryPendingReason ∧
    (GetEmailCondition .delivered).status = CondStatus.ctrue ∧
    (GetEmailCondition .delivered).emailDeliveredReason = EmailDeliveredReason ∧
    (GetEmailCondition .opened).status = CondStatus.ctrue ∧
    (GetEmailCondition .opened).emailDeliveredReason = EmailDeliveredReason ∧
    (GetEmailCondition .clicked).status = CondStatus.ctrue ∧
    (GetEmailCondition .clicked).emailDeliveredReason = EmailDeliveredReason ∧
    (GetEmailCondition .complained).status = CondStatus.ctrue ∧
    (GetEmailCondition .complained).emailDeliveredReason = EmailDeliveredReason ∧
    (GetEmailCondition .bounced).status = CondStatus.cfalse ∧
    (GetEmailCondition .bounced).emailDeliveredReason = EmailDeliveryFailedReason ∧
    (GetEmailCondition .emailFailed).status = CondStatus.cfalse ∧
    (GetEmailCondition .emailFailed).emailDeliveredReason = EmailDeliveryFailedReason := by
  decide

/-- After `SetStatusCondition`, looking the type up finds a condition whose
status, reason, message and observed generation are the ones just written. -/
theorem find_setStatusCondition (conds : List Condition) (nc : Condition) :
    ∃ c, FindStatusCondition (SetStatusCondition conds nc) nc.condType = some c ∧
      c.condType = nc.condType ∧ c.status = nc.status ∧ c.reason = nc.reason ∧
      c.message = nc.message ∧ c.observedGeneration = nc.observedGeneration := by
  induction conds with
  | nil =>
    refine ⟨nc, ?_, rfl, rfl, rfl, rfl, rfl⟩
    simp [SetStatusCondition, FindStatusCondition]
  | cons c rest ih =>
    by_cases h : c.condType = nc.condType
    · refine ⟨{ nc with lastTransitionTime :=
          if c.status = nc.status then c.lastTransitionTime
          else nc.lastTransitionTime }, ?_, rfl, rfl, rfl, rfl, rfl⟩
      simp [SetStatusCondition, FindStatusCondition, h]
    · obtain ⟨d, hd, h1, h2, h3, h4, h5⟩ := ih
      refine ⟨d, ?_, h1, h2, h3, h4, h5⟩
      simp [SetStatusCondition, FindStatusCondition, h, hd]

/-- A pass on an already-sent Email leaves the status unchanged and does not
send. -/
theorem emailReconcilePass_alreadySent (cfg : EmailControllerConfig) (email : Email)
    (now : Nat) (env : EmailPassEnv) (h : isEmailAlreadySent email = true) :
    (emailReconcilePass cfg email now env).status = email.status ∧
    (emailReconcilePass cfg email now env).sendCalled = false := by
  cases env with
  | refsError => exact ⟨rfl, rfl⟩
  | provider outcome => simp [emailReconcilePass, h]

/-- C1: the provider send operation is invoked by a reconcile pass only when
`Status.ProviderID` is empty and the Delivered condition is not True, and
once `ProviderID` is non-empty (or Delivered is True) no pass of any later
reconcile sequence invokes send again. -/
theorem email_send_at_most_once (cfg : EmailControllerConfig) (email : Email) (now : Nat) :
    (∀ env, (emailReconcilePass cfg email now env).sendCalled = true →
      email.status.providerID = "" ∧
      IsStatusConditionTrue email.status.conditions EmailDeliveredCondition = false) ∧
    (∀ envs, (email.status.providerID ≠ "" ∨
        IsStatusConditionTrue email.status.conditions EmailDeliveredCondition = true) →
      (emailReconcileTrace cfg email now envs).2 = 0) := by
  constructor
  · intro env hsend
    by_cases hp : email.status.providerID = ""
    · refine ⟨hp, ?_⟩
      by_cases hd : IsStatusConditionTrue email.status.conditions EmailDeliveredCondition = true
      · exfalso
        have hsent : isEmailAlreadySent email = true := by
          simp [isEmailAlreadySent, hp, hd]
        have := (emailReconcilePass_alreadySent cfg email now env hsent).2
        rw [this] at hsend
        exact Bool.false_ne_true hsend
      · simpa using hd
    · exfalso
      have hsent : isEmailAlreadySent email = true := by
        simp [isEmailAlreadySent, hp]
      have := (emailReconcilePass_alreadySent cfg email now env hsent).2
      rw [this] at hsend
      exact Bool.false_ne_true hsend
  · intro envs h
    have hsent : isEmailAlreadySent email = true := by
      rcases h with h | h
      · simp [isEmailAlreadySent, h]
      · simp [isEmailAlreadySent, h]
    clear h
    induction envs generalizing email with
    | nil => rfl
    | cons env rest ih =>
      obtain ⟨hst, hsc⟩ := emailReconcilePass_alreadySent cfg email now env hsent
      have hsent2 : isEmailAlreadySent { email with status := (emailReconcilePass cfg email now env).status } = true := by
        rw [hst]
        exact hsent
      have hz := ih _ hsent2
      simp [emailReconcileTrace, hsc, hz]

/-- C7: when the provider send fails, the pass leaves the status untouched,
writes no condition, and requeues after the configured wait for the Email's
priority; an unrecognized priority uses the normal-priority wait. -/
theorem email_send_failure_requeue (cfg : EmailControllerConfig) (email : Email) (now : Nat)
    (h : isEmailAlreadySent email = false) :
    emailReconcilePass cfg email now (.provider .sendFailed) =
      { status := email.status, sendCalled := true,
        requeueAfter := some (GetWaitTimeBeforeRetry cfg email.spec.priority) } ∧
    (∀ s, GetWaitTimeBeforeRetry cfg (EmailPriority.unrecognized s) = cfg.normalWait) := by
  constructor
  · simp [emailReconcilePass, h]
  · intro s
    rfl

/-- Witness for C1 at a concrete already-sent Email and a concrete
two-pass reconcile sequence. -/
theorem email_send_at_most_once_witness :
    (emailReconcileTrace sampleCfg sampleSentEmail 0
      [.provider .sendFailed, .provider (.sendOk "d-2" true)]).2 = 0 :=
  (email_send_at_most_once sampleCfg sampleSentEmail 0).2 _ (Or.inl (by decide))

/-- Witness for C7 at a concrete not-yet-sent Email. -/
theorem email_send_failure_requeue_witness :
    emailReconcilePass sampleCfg sampleFreshEmail 0 (.provider .sendFailed) =
      { status := sampleFreshEmail.status, sendCalled := true,
        requeueAfter := some (GetWaitTimeBeforeRetry sampleCfg sampleFreshEmail.spec.priority) } :=
  (email_send_failure_requeue sampleCfg sampleFreshEmail 0 (by decide)).1

/-- C3: a delivery (email) webhook event whose provider identifier matches no
indexed Email returns 404, a contact-lifecycle event whose identifier matches
no indexed Contact returns 200, and in both cases the store is unchanged and
no status update is issued. -/
theorem webhook_unmatched_event_no_mutation (emailStore : List Email)
    (contactStore : List Contact) (evE : EmailEventType) (evC : ContactEventType)
    (pidE pidC : String) (now : Nat)
    (hE : emailsByProviderID emailStore pidE = [])
    (hC : contactsByProviderID contactStore pidC = []) :
    resendWebhookV1Handle emailStore evE pidE now =
      { response := NotFoundResponse, store := emailStore, statusUpdateIssued := false } ∧
    resendContactWebhookV1Handle contactStore evC pidC now =
      { response := OkResponse, store := contactStore, statusUpdateIssued := false } := by
  constructor
  · simp [resendWebhookV1Handle, hE]
  · simp [resendContactWebhookV1Handle, hC]

/-- Witness for C3 on concrete stores with no matching resource. -/
theorem webhook_unmatched_event_no_mutation_witness :
    resendWebhookV1Handle [sampleSentEmail] .delivered "d-404" 0 =
      { response := NotFoundResponse, store := [sampleSentEmail],
        statusUpdateIssued := false } :=
  (webhook_unmatched_event_no_mutation [sampleSentEmail] [] .delivered .deleted
    "d-404" "c-404" 0 (by decide) rfl).1

/-- C10: whenever the correlated Contact has an Updated condition with the
update-pending reason, every contact-lifecycle event (including
contact.deleted) makes the handler write the ContactUpdated=True
confirmation; the ContactDeleted condition is written exactly on
contact.deleted events with no pending update. -/
theorem contact_webhook_pending_update_priority (eventType : ContactEventType)
    (conds : List Condition) (gen now : Nat) :
    (hasPendingContactUpdate conds = true →
      contactEventCondition eventType conds gen now =
        contactUpdateConfirmedCondition gen now) ∧
    ((contactEventCondition eventType conds gen now).condType = ContactDeletedCondition ↔
      (eventType = ContactEventType.deleted ∧ hasPendingContactUpdate conds = false)) := by
  constructor
  · intro h
    cases eventType <;> simp [contactEventCondition, h]
  · by_cases h : hasPendingContactUpdate conds = true
    · cases eventType <;>
        simp [contactEventCondition, h, contactUpdateConfirmedCondition,
          ContactUpdatedCondition, ContactDeletedCondition]
    · rw [Bool.not_eq_true] at h
      cases eventType <;>
        simp [contactEventCondition, h, contactUpdateConfirmedCondition,
          ContactUpdatedCondition, ContactDeletedCondition,
          ResendContactReadyCondition]

/-- Witness for C10: a contact.deleted event on a contact with a pending
update yields the update confirmation, not the deleted marker. -/
theorem contact_webhook_pending_update_priority_witness :
    contactEventCondition .deleted pendingUpdateConds 3 7 =
      contactUpdateConfirmedCondition 3 7 :=
  (contact_webhook_pending_update_priority .deleted pendingUpdateConds 3 7).1 (by decide)

/-- C5: when the guard for a ContactGroupMembership reaches the provider
delete and the Resend SDK reports a "not found" error,
`TranslateResendError` turns it into NotFound and the guard completes
successfully on that same invocation after exactly one provider call, with
the stored conditions untouched — no retry is required. -/
theorem cgm_finalize_notFound_success (env : CgmFinalizeEnv) (now : Nat) (msg : String)
    (h1 : IsStatusConditionTrue env.conditions ContactGroupMembershipDeletedCondition = false)
    (h2 : env.contactGroupGetOk = true)
    (h3 : env.sdkDelete = .error msg)
    (h4 : strContains (strToLower msg) "not found" = true) :
    cgmFinalize env now =
      { outcome := .completed, providerDeleteCalls := 1, conditions := env.conditions } := by
  simp [cgmFinalize, h1, h2, h3, resendDeleteContactGroupMembership,
    TranslateResendError, h4, IsNotFound]

/-- Witness for C5 at a concrete environment whose SDK delete returns
"[ERROR]: Contact not found". -/
theorem cgm_finalize_notFound_success_witness :
    cgmFinalize sampleCgmNotFoundEnv 0 =
      { outcome := .completed, providerDeleteCalls := 1,
        conditions := sampleCgmNotFoundEnv.conditions } :=
  cgm_finalize_notFound_success sampleCgmNotFoundEnv 0 "[ERROR]: Contact not found"
    (by decide) (by decide) rfl (by decide)

/-- C4: when referencing memberships survive the delete pass, both deletion
guards return the retryable waiting-for-N-deletions signal — which is not
completion, so the resource cannot be physically removed — and the
ContactGroup guard does not delete the group's own provider entity. -/
theorem deletion_guard_waits_for_dependents (envG : CgFinalizeEnv)
    (envC : ContactFinalizeEnv)
    (hG1 : firstDeleteError envG.cgms = none)
    (hG2 : survivingDependents envG.cgms ≠ [])
    (hC1 : firstDeleteError envC.cgms = none)
    (hC2 : survivingDependents envC.cgms ≠ []) :
    contactGroupFinalize envG =
      { outcome := .waitingForDeletions (survivingDependents envG.cgms).length,
        providerDeleteCalled := false } ∧
    contactFinalize envC =
      .waitingForDeletions (survivingDependents envC.cgms).length ∧
    (∀ n, FinalizeOutcome.waitingForDeletions n ≠ FinalizeOutcome.completed) := by
  have hGl : 0 < (survivingDependents envG.cgms).length := List.length_pos.mpr hG2
  have hCl : 0 < (survivingDependents envC.cgms).length := List.length_pos.mpr hC2
  refine ⟨?_, ?_, ?_⟩
  · simp [contactGroupFinalize, hG1, hGl]
  · simp [contactFinalize, hC1, hCl]
  · intro n h
    exact FinalizeOutcome.noConfusion h

/-- Witness for C4 at a concrete environment with one surviving membership. -/
theorem deletion_guard_waits_for_dependents_witness :
    contactGroupFinalize sampleCgBlockedEnv =
      { outcome := .waitingForDeletions (survivingDependents sampleCgBlockedEnv.cgms).length,
        providerDeleteCalled := false } :=
  (deletion_guard_waits_for_dependents sampleCgBlockedEnv
    { cgms := sampleCgBlockedEnv.cgms, cgmrs := [] }
    rfl (by decide) rfl (by decide)).1

theorem charListHasSub_nil (h : List Char) : charListHasSub [] h = true := by
  cases h with
  | nil => rfl
  | cons b bs => simp [charListHasSub, charListHasPre]

theorem charListHasPre_self_append (n ys : List Char) :
    charListHasPre n (n ++ ys) = true := by
  induction n with
  | nil => rfl
  | cons a as ih => simp [charListHasPre, ih]

theorem charListHasSub_of_pre {n h : List Char} (hp : charListHasPre n h = true) :
    charListHasSub n h = true := by
  cases h with
  | nil =>
    cases n with
    | nil => rfl
    | cons a as => simp [charListHasPre] at hp
  | cons b bs => simp [charListHasSub, hp]

theorem charListHasPre_extend {n h : List Char} (b : List Char)
    (hp : charListHasPre n h = true) : charListHasPre n (h ++ b) = true := by
  induction n generalizing h with
  | nil => rfl
  | cons a as ih =>
    cases h with
    | nil => simp [charListHasPre] at hp
    | cons x xs =>
      simp only [charListHasPre, Bool.and_eq_true, decide_eq_true_eq] at hp
      simp only [List.cons_append, charListHasPre, Bool.and_eq_true, decide_eq_true_eq]
      exact ⟨hp.1, ih hp.2⟩

theorem charListHasSub_append_left {n a : List Char} (b : List Char)
    (h : charListHasSub n a = true) : charListHasSub n (a ++ b) = true := by
  induction a with
  | nil =>
    cases n with
    | nil => simpa using charListHasSub_nil b
    | cons c cs => simp [charListHasSub, List.isEmpty] at h
  | cons x xs ih =>
    simp only [charListHasSub, Bool.or_eq_true] at h
    simp only [List.cons_append, charListHasSub, Bool.or_eq_true]
    rcases h with h | h
    · exact Or.inl (charListHasPre_extend b h)
    · exact Or.inr (ih h)

theorem charListHasSub_append_right (a : List Char) {n b : List Char}
    (h : charListHasSub n b = true) : charListHasSub n (a ++ b) = true := by
  induction a with
  | nil => exact h
  | cons x xs ih =>
    simp only [List.cons_append, charListHasSub, Bool.or_eq_true]
    exact Or.inr ih

theorem strContains_append_left (a b n : String) (h : strContains a n = true) :
    strContains (a ++ b) n = true := by
  unfold strContains at h ⊢
  rw [String.data_append]
  exact charListHasSub_append_left _ h

theorem strContains_append_right (a b n : String) (h : strContains b n = true) :
    strContains (a ++ b) n = true := by
  unfold strContains at h ⊢
  rw [String.data_append]
  exact charListHasSub_append_right _ h

theorem strContains_pre (x y : String) : strContains (x ++ y) x = true := by
  unfold strContains
  rw [String.data_append]
  exact charListHasSub_of_pre (charListHasPre_self_append _ _)

/-- C6: the aggregated Ready condition written by
`verifyContactGroupMembershipReadyCondition` is True with reason
AllProvidersReady iff both the Loops and the Resend sub-conditions are
present with status True; in every other combination it is False with reason
ProvidersNotReady and a message naming each non-ready provider and its
reason. -/
theorem cgm_ready_aggregation (conds : List Condition) (gen now : Nat) :
    ∃ c, FindStatusCondition
        (verifyContactGroupMembershipReadyCondition conds gen now)
        ContactGroupMembershipReadyCondition = some c ∧
      ((optCondTrue (FindStatusCondition conds LoopsContactGroupMembershipReadyCondition) &&
        optCondTrue (FindStatusCondition conds ResendContactGroupMembershipReadyCondition)) = true →
        c.status = CondStatus.ctrue ∧ c.reason = "AllProvidersReady") ∧
      ((c.status = CondStatus.ctrue ∧ c.reason = "AllProvidersReady") →
        (optCondTrue (FindStatusCondition conds LoopsContactGroupMembershipReadyCondition) &&
         optCondTrue (FindStatusCondition conds ResendContactGroupMembershipReadyCondition)) = true) ∧
      ((optCondTrue (FindStatusCondition conds LoopsContactGroupMembershipReadyCondition) &&
        optCondTrue (FindStatusCondition conds ResendContactGroupMembershipReadyCondition)) = false →
        c.status = CondStatus.cfalse ∧ c.reason = "ProvidersNotReady" ∧
        (FindStatusCondition conds LoopsContactGroupMembershipReadyCondition = none →
          strContains c.message "Loops: condition missing" = true) ∧
        (∀ lc, FindStatusCondition conds LoopsContactGroupMembershipReadyCondition = some lc →
          lc.status ≠ CondStatus.ctrue →
          strContains c.message ("Loops: " ++ lc.reason) = true) ∧
        (FindStatusCondition conds ResendContactGroupMembershipReadyCondition = none →
          strContains c.message "Resend: condition missing" = true) ∧
        (∀ rc, FindStatusCondition conds ResendContactGroupMembershipReadyCondition = some rc →
          rc.status ≠ CondStatus.ctrue →
          strContains c.message ("Resend: " ++ rc.reason) = true)) := by
  cases hAll : (optCondTrue (FindStatusCondition conds LoopsContactGroupMembershipReadyCondition) &&
      optCondTrue (FindStatusCondition conds ResendContactGroupMembershipReadyCondition)) with
  | true =>
    have hv : verifyContactGroupMembershipReadyCondition conds gen now =
        SetStatusCondition conds
          { condType := ContactGroupMembershipReadyCondition
            status := CondStatus.ctrue
            reason := "AllProvidersReady"
            message := "Loops and Resend contact group membership are ready"
            observedGeneration := gen
            lastTransitionTime := now } := by
      simp [verifyContactGroupMembershipReadyCondition, hAll]
    obtain ⟨c, hc, hty, hst, hrsn, hmsg, hog⟩ := find_setStatusCondition conds
      { condType := ContactGroupMembershipReadyCondition
        status := CondStatus.ctrue
        reason := "AllProvidersReady"
        message := "Loops and Resend contact group membership are ready"
        observedGeneration := gen
        lastTransitionTime := now }
    refine ⟨c, ?_, ?_, ?_, ?_⟩
    · rw [hv]
      exact hc
    · intro _
      exact ⟨hst, hrsn⟩
    · intro _
      rfl
    · intro hf
      exact absurd hf (by decide)
  | false =>
    have hv : verifyContactGroupMembershipReadyCondition conds gen now =
        SetStatusCondition conds
          { condType := ContactGroupMembershipReadyCondition
            status := CondStatus.cfalse
            reason := "ProvidersNotReady"
            message :=
              loopsNotReadySegment
                (FindStatusCondition conds LoopsContactGroupMembershipReadyCondition) ++
              resendNotReadySegment
                (FindStatusCondition conds ResendContactGroupMembershipReadyCondition)
            observedGeneration := gen
            lastTransitionTime := now } := by
      simp [verifyContactGroupMembershipReadyCondition, hAll]
    obtain ⟨c, hc, hty, hst, hrsn, hmsg, hog⟩ := find_setStatusCondition conds
      { condType := ContactGroupMembershipReadyCondition
        status := CondStatus.cfalse
        reason := "ProvidersNotReady"
        message :=
          loopsNotReadySegment
            (FindStatusCondition conds LoopsContactGroupMembershipReadyCondition) ++
          resendNotReadySegment
            (FindStatusCondition conds ResendContactGroupMembershipReadyCondition)
        observedGeneration := gen
        lastTransitionTime := now }
    refine ⟨c, ?_, ?_, ?_, ?_⟩
    · rw [hv]
      exact hc
    · intro ht
      exact absurd ht (by decide)
    · intro hts
      rw [hst] at hts
      exact absurd (show CondStatus.cfalse = CondStatus.ctrue from hts.1) (by decide)
    · intro _
      refine ⟨hst, hrsn, ?_, ?_, ?_, ?_⟩
      · intro hnone
        rw [hmsg, hnone]
        exact strContains_append_left _ _ _ (by decide)
      · intro lc hlc hlst
        rw [hmsg, hlc]
        simp only [loopsNotReadySegment, if_pos hlst]
        exact strContains_append_left _ _ _ (strContains_append_left _ _ _
          (strContains_append_left _ _ _ (strContains_pre _ _)))
      · intro hnone
        rw [hmsg, hnone]
        exact strContains_append_right _ _ _ (by decide)
      · intro rc hrc hrst
        rw [hmsg, hrc]
        simp only [resendNotReadySegment, if_pos hrst]
        exact strContains_append_right _ _ _ (strContains_append_left _ _ _
          (strContains_append_left _ _ _ (strContains_pre _ _)))

/-- Witness for C6: at a concrete condition list with Loops ready and Resend
not ready the aggregation applies as the theorem states. -/
theorem cgm_ready_aggregation_witness :
    ∃ c, FindStatusCondition
        (verifyContactGroupMembershipReadyCondition sampleCgmConds 1 2)
        ContactGroupMembershipReadyCondition = some c ∧
      ((optCondTrue (FindStatusCondition sampleCgmConds LoopsContactGroupMembershipReadyCondition) &&
        optCondTrue (FindStatusCondition sampleCgmConds ResendContactGroupMembershipReadyCondition)) = true →
        c.status = CondStatus.ctrue ∧ c.reason = "AllProvidersReady") ∧
      ((c.status = CondStatus.ctrue ∧ c.reason = "AllProvidersReady") →
        (optCondTrue (FindStatusCondition sampleCgmConds LoopsContactGroupMembershipReadyCondition) &&
         optCondTrue (FindStatusCondition sampleCgmConds ResendContactGroupMembershipReadyCondition)) = true) ∧
      ((optCondTrue (FindStatusCondition sampleCgmConds LoopsContactGroupMembershipReadyCondition) &&
        optCondTrue (FindStatusCondition sampleCgmConds ResendContactGroupMembershipReadyCondition)) = false →
        c.status = CondStatus.cfalse ∧ c.reason = "ProvidersNotReady" ∧
        (FindStatusCondition sampleCgmConds LoopsContactGroupMembershipReadyCondition = none →
          strContains c.message "Loops: condition missing" = true) ∧
        (∀ lc, FindStatusCondition sampleCgmConds LoopsContactGroupMembershipReadyCondition = some lc →
          lc.status ≠ CondStatus.ctrue →
          strContains c.message ("Loops: " ++ lc.reason) = true) ∧
        (FindStatusCondition sampleCgmConds ResendContactGroupMembershipReadyCondition = none →
          strContains c.message "Resend: condition missing" = true) ∧
        (∀ rc, FindStatusCondition sampleCgmConds ResendContactGroupMembershipReadyCondition = some rc →
          rc.status ≠ CondStatus.ctrue →
          strContains c.message ("Resend: " ++ rc.reason) = true)) :=
  cgm_ready_aggregation sampleCgmConds 1 2

/-- Counterexample to C8 as stated: a duplicate email.delivered event leaves
the computed status identical to the status read at the start of the pass
(the merged condition equals the stored one), yet the webhook receiver still
issues a `Status().Update` call — it has no compare-before-write guard. -/
theorem webhook_unconditional_status_write :
    resendWebhookV1Handle [dupDeliveredEmail] .delivered "d-9" 99 =
      { response := OkResponse, store := [dupDeliveredEmail],
        statusUpdateIssued := true } := by
  decide

/-- C8 (amended): the ContactGroup, Contact and ContactGroupMembership
reconcilers guard their own status write with a semantic comparison — the
update call is issued iff the computed status differs from the status read
at the start of the pass — while the webhook receiver issues its status
update unconditionally whenever a resource matched the event. -/
theorem reconciler_status_write_guard (cg : ContactGroup) (c : Contact)
    (cgm : ContactGroupMembership) (envG envM : CreateOutcome) (now : Nat) :
    (∀ r, contactGroupReconcileStatus cg envG now = some r →
      (r.updateIssued = true ↔ r.newStatus ≠ cg.status)) ∧
    ((contactReconcileStatus c now).updateIssued = true ↔
      (contactReconcileStatus c now).newStatus ≠ c.status) ∧
    (∀ r, cgmReconcileStatus cgm envM now = some r →
      (r.updateIssued = true ↔ r.newStatus ≠ cgm.status)) ∧
    (∀ store ev pid now2 e rest, emailsByProviderID store pid = e :: rest →
      (resendWebhookV1Handle store ev pid now2).statusUpdateIssued = true) := by
  refine ⟨?_, ?_, ?_, ?_⟩
  · intro r hr
    cases hcs : contactGroupComputeStatus cg envG now with
    | none =>
      rw [contactGroupReconcileStatus, hcs] at hr
      exact Option.noConfusion hr
    | some ns =>
      rw [contactGroupReconcileStatus, hcs] at hr
      have hr2 := Option.some_inj.mp hr
      subst hr2
      simp
  · simp [contactReconcileStatus]
  · intro r hr
    cases hcs : cgmComputeStatus cgm envM now with
    | none =>
      rw [cgmReconcileStatus, hcs] at hr
      exact Option.noConfusion hr
    | some ns =>
      rw [cgmReconcileStatus, hcs] at hr
      have hr2 := Option.some_inj.mp hr
      subst hr2
      simp
  · intro store ev pid now2 e rest h
    simp [resendWebhookV1Handle, h]

/-- Witness for the amended C8 at concrete resources. -/
theorem reconciler_status_write_guard_witness :
    (contactReconcileStatus sampleContact 0).updateIssued = true ↔
      (contactReconcileStatus sampleContact 0).newStatus ≠ sampleContact.status :=
  (reconciler_status_write_guard sampleContactGroup sampleContact sampleCgm
    (.createOk "p-1") (.createOk "p-2") 0).2.1

/-- C9: every Email sent through the service layer forwards an idempotency
key equal to the resource's immutable unique identifier (its UID), not its
mutable name. -/
theorem service_send_idempotency_key (s : ServiceCfg) (eng : TemplateEngine)
    (email : Email) (template : EmailTemplate) (rcpt : String)
    (inp : SendEmailInput)
    (h : serviceSendInput s eng email template rcpt = .ok inp) :
    inp.idempotencyKey = email.uid ∧
    (email.uid ≠ email.name → inp.idempotencyKey ≠ email.name) := by
  rw [serviceSendInput] at h
  cases h1 : RenderHTMLBodyTemplate eng email.spec.vars template with
  | error e =>
    rw [h1] at h
    simp [Bind.bind, Except.bind] at h
  | ok hb =>
    rw [h1] at h
    cases h2 : RenderTextBodyTemplate eng email.spec.vars template with
    | error e =>
      rw [h2] at h
      simp [Bind.bind, Except.bind] at h
    | ok tb =>
      rw [h2] at h
      cases h3 : RenderSubjectTemplate eng email.spec.vars template with
      | error e =>
        rw [h3] at h
        simp [Bind.bind, Except.bind] at h
      | ok subj =>
        rw [h3] at h
        simp only [Bind.bind, Except.bind, pure, Except.pure, Except.ok.injEq] at h
        subst h
        exact ⟨rfl, fun hne => hne⟩

/-- Witness for C9 at a concrete email, template and engine. -/
theorem service_send_idempotency_key_witness :
    sampleSendInput.idempotencyKey = sampleFreshEmail.uid ∧
    (sampleFreshEmail.uid ≠ sampleFreshEmail.name →
      sampleSendInput.idempotencyKey ≠ sampleFreshEmail.name) :=
  service_send_idempotency_key sampleSvc sampleEngine sampleFreshEmail sampleTemplate
    "user@example.com" sampleSendInput (by rfl)
